import Mathlib

/-!
Shallow embedding of `src/torchquantum/layer/nlocal.py`: the NLocal layer
composition engine (`NLocal.build_rotation_block`, `NLocal.build_entanglement_block`,
`NLocal.build_layers`), the `TwoLocal` string-to-layer dispatch, and the presets
`ExcitationPreserving` and `EfficientSU2`.

Modelling choices:
* Gate operations (`tq.RY`, `tq.RZ`, `tq.RXX`, `tq.RYY`, `tq.CNOT`, ...) are opaque
  handles: an enumeration `Gate`.
* The layer-kind classes (`tq.layers.Op1QAllLayer`, `Op2QAllLayer`, `Op2QDenseLayer`)
  are opaque constructors: an enumeration `LayerKind`.
* Parameter dictionaries (`rotation_layer_params`, `entanglement_layer_params`) carry
  only boolean values in this module ({"has_params": True, "trainable": True},
  {"wire_reverse": True}, {"circular": True}), so they are modelled as association
  lists `List (String × Bool)`.
* A constructed layer instance (`self.rotation_layer(op=rot, n_wires=..., **params)`)
  is a `Block` recording exactly the constructor arguments the source passes.
* `self.initial_circuit` is an opaque `tq.QuantumModule`, modelled as an opaque handle
  (a `Nat` identifier) so the output sequence can distinguish it from built blocks.
* Python `range(self.reps)` iterates `max reps 0` times; `reps` is an `Int` and the
  iteration count is `reps.toNat` (which is 0 for negative `reps`), exactly Python's
  `range` semantics.
* `TwoLocal.__init__` accepts `entanglement_layer` as either a string or a layer
  class; this dual acceptance is the sum type `EntArg`.
-/

/-- Opaque gate-operation handles used by this module (`tq.RX`, `tq.RY`, `tq.RZ`,
`tq.RXX`, `tq.RYY`, `tq.CNOT`). The composition engine never inspects them. -/
inductive Gate
  | RX | RY | RZ | RXX | RYY | CNOT
  deriving DecidableEq, Repr

/-- Opaque layer-kind (layer-class) handles: `tq.layers.Op1QAllLayer`,
`tq.layers.Op2QAllLayer`, `tq.layers.Op2QDenseLayer`. -/
inductive LayerKind
  | Op1QAllLayer | Op2QAllLayer | Op2QDenseLayer
  deriving DecidableEq, Repr

/-- Parameter dictionaries of this module: keys to boolean values
(e.g. `{"has_params": True, "trainable": True}`, `{"wire_reverse": True}`). -/
abbrev Params := List (String × Bool)

/-- One constructed layer instance. The source builds each one as
`layer_class(op=..., n_wires=..., **params)`; a `Block` records exactly those
constructor arguments. -/
structure Block where
  layer : LayerKind
  op : Gate
  n_wires : Nat
  params : Params
  deriving DecidableEq, Repr

/-- One element of the `QuantumModuleList` returned by `build_layers`: either the
user-supplied `initial_circuit` (an opaque module handle) or a constructed `Block`. -/
inductive ModuleItem
  | initial (id : Nat)
  | block (b : Block)
  deriving DecidableEq, Repr

/-- The fields `NLocal.__init__` stores on `self` (with `n_wires` the wire count the
base `LayerTemplate0` derives from `arch`). `reps` is an `Int` because Python accepts
any integer there. -/
structure NLocalConfig where
  rotation_ops : List Gate
  entanglement_ops : List Gate
  rotation_layer : LayerKind
  entanglement_layer : LayerKind
  reps : Int
  rotation_layer_params : Params
  entanglement_layer_params : Params
  initial_circuit : Option Nat
  skip_final_rotation_layer : Bool
  n_wires : Nat
  deriving DecidableEq, Repr

/-- `NLocal.build_rotation_block`: one `Block` per element of `rotation_ops`, in list
order, each constructed from `rotation_layer` with `op`, `n_wires` and
`rotation_layer_params`. -/
def build_rotation_block (c : NLocalConfig) : List Block :=
  c.rotation_ops.map fun rot =>
    { layer := c.rotation_layer
      op := rot
      n_wires := c.n_wires
      params := c.rotation_layer_params }

/-- `NLocal.build_entanglement_block`: one `Block` per element of `entanglement_ops`,
in list order, each constructed from `entanglement_layer` with `op`, `n_wires` and
`entanglement_layer_params`. -/
def build_entanglement_block (c : NLocalConfig) : List Block :=
  c.entanglement_ops.map fun ent =>
    { layer := c.entanglement_layer
      op := ent
      n_wires := c.n_wires
      params := c.entanglement_layer_params }

/-- The initial segment of `build_layers`: `[initial_circuit]` when present, else
empty (`if self.initial_circuit is not None: layers_all.append(...)`). -/
def initial_part (c : NLocalConfig) : List ModuleItem :=
  match c.initial_circuit with
  | some i => [ModuleItem.initial i]
  | none => []

/-- One iteration of the `for _ in range(self.reps)` loop body: the rotation block
followed by the entanglement block. -/
def rep_body (c : NLocalConfig) : List ModuleItem :=
  (build_rotation_block c).map ModuleItem.block ++
    (build_entanglement_block c).map ModuleItem.block

/-- The segment contributed by the `for _ in range(self.reps)` loop: the loop body
repeated `range(reps)`-many times. Python's `range(n)` is empty for `n ≤ 0`, hence
`Int.toNat`. -/
def rep_part (c : NLocalConfig) : List ModuleItem :=
  (List.replicate c.reps.toNat (rep_body c)).flatten

/-- The trailing segment of `build_layers`: one more rotation block unless
`skip_final_rotation_layer` is set. -/
def final_part (c : NLocalConfig) : List ModuleItem :=
  if c.skip_final_rotation_layer then []
  else (build_rotation_block c).map ModuleItem.block

/-- `NLocal.build_layers`: initial circuit (if any), then `reps` repetitions of
rotation block followed by entanglement block, then a final rotation block unless
skipped. -/
def build_layers (c : NLocalConfig) : List ModuleItem :=
  initial_part c ++ rep_part c ++ final_part c

/-- `build_layers` in the error monad. The source body
(`src/torchquantum/layer/nlocal.py`, `NLocal.build_layers`) contains no validation
and no `raise` statement on any path — in particular no wire-count check — so its
embedding into the error monad is `.ok` of the pure result for every configuration. -/
def build_layers_checked (c : NLocalConfig) : Except String (List ModuleItem) :=
  Except.ok (build_layers c)

/-- The `entanglement_layer` argument of `TwoLocal.__init__`: either a topology name
string or an already-resolved layer class. -/
inductive EntArg
  | name (s : String)
  | kind (k : LayerKind)
  deriving DecidableEq, Repr

/-- The string dispatch at the top of `TwoLocal.__init__` (the topology resolver):
`"linear"` and `"reverse_linear"` select `Op2QAllLayer`, `"circular"` selects
`Op2QAllLayer`, `"full"` selects `Op2QDenseLayer`; `"reverse_linear"` and
`"circular"` additionally REASSIGN `entanglement_layer_params` to a fresh dict
(`{"wire_reverse": True}` resp. `{"circular": True}`), discarding the caller's
dict. Any other value — including an unrecognized name string — matches no branch
and is passed through unchanged with the caller's params; no error is raised. -/
def twoLocalResolve (e : EntArg) (p : Params) : EntArg × Params :=
  if e = EntArg.name "linear" then (EntArg.kind LayerKind.Op2QAllLayer, p)
  else if e = EntArg.name "reverse_linear" then
    (EntArg.kind LayerKind.Op2QAllLayer, [("wire_reverse", true)])
  else if e = EntArg.name "circular" then
    (EntArg.kind LayerKind.Op2QAllLayer, [("circular", true)])
  else if e = EntArg.name "full" then (EntArg.kind LayerKind.Op2QDenseLayer, p)
  else (e, p)

/-- `TwoLocal.__init__`: resolves the entanglement argument, hardcodes
`rotation_layer_params={"has_params": True, "trainable": True}` (the signature has
no such parameter, so no caller can override it), and stores everything on `self`
via `NLocal.__init__`. Returns `none` when resolution leaves a name string: in the
source that constructs an `NLocal` holding a non-callable string, which cannot
yield any `Block`; no claim depends on that degenerate case. -/
def twoLocal (rotation_ops entanglement_ops : List Gate) (n_wires : Nat)
    (rotation_layer : LayerKind) (entanglement_layer : EntArg) (reps : Int)
    (entanglement_layer_params : Params) (initial_circuit : Option Nat)
    (skip_final_rotation_layer : Bool) : Option NLocalConfig :=
  match twoLocalResolve entanglement_layer entanglement_layer_params with
  | (EntArg.kind k, p) =>
    some
      { rotation_ops := rotation_ops
        entanglement_ops := entanglement_ops
        rotation_layer := rotation_layer
        entanglement_layer := k
        reps := reps
        rotation_layer_params := [("has_params", true), ("trainable", true)]
        entanglement_layer_params := p
        initial_circuit := initial_circuit
        skip_final_rotation_layer := skip_final_rotation_layer
        n_wires := n_wires }
  | (EntArg.name _, _) => none

/-- `ExcitationPreserving.__init__`: rotation ops `[RZ]`, entanglement ops
`[RXX, RYY]`, entanglement params `{"has_params": True, "trainable": True}`,
rotation layer left at `TwoLocal`'s default `Op1QAllLayer`, no initial circuit. -/
def excitationPreserving (n_wires : Nat) (entanglement_layer : EntArg) (reps : Int)
    (skip_final_rotation_layer : Bool) : Option NLocalConfig :=
  twoLocal [Gate.RZ] [Gate.RXX, Gate.RYY] n_wires LayerKind.Op1QAllLayer
    entanglement_layer reps [("has_params", true), ("trainable", true)] none
    skip_final_rotation_layer

/-- Default argument values of `ExcitationPreserving.__init__`:
`entanglement_layer="full"`, `reps=3`. -/
def excitationPreservingDefaults : EntArg × Int := (EntArg.name "full", 3)

/-- `EfficientSU2.__init__`: rotation ops `[RY, RZ]`, entanglement ops `[CNOT]`,
entanglement params left at `TwoLocal`'s default `{}`, rotation layer left at
`TwoLocal`'s default `Op1QAllLayer`, no initial circuit. -/
def efficientSU2 (n_wires : Nat) (entanglement_layer : EntArg) (reps : Int)
    (skip_final_rotation_layer : Bool) : Option NLocalConfig :=
  twoLocal [Gate.RY, Gate.RZ] [Gate.CNOT] n_wires LayerKind.Op1QAllLayer
    entanglement_layer reps [] none skip_final_rotation_layer

/-- Default argument values of `EfficientSU2.__init__`:
`entanglement_layer="reverse_linear"`, `reps=3`. -/
def efficientSU2Defaults : EntArg × Int := (EntArg.name "reverse_linear", 3)

/-- State-passing embedding of `NLocal.build_rotation_block`: the source body only
reads `self.rotation_ops`, `self.rotation_layer`, `self.n_wires` and
`self.rotation_layer_params` and assigns no attribute and mutates no dict
(`**self.rotation_layer_params` unpacks without mutating), so the method returns
`self` unchanged alongside the fresh list it builds. -/
def build_rotation_block_st (c : NLocalConfig) : NLocalConfig × List Block :=
  (c, c.rotation_ops.map fun rot =>
    { layer := c.rotation_layer
      op := rot
      n_wires := c.n_wires
      params := c.rotation_layer_params })

/-- State-passing embedding of `NLocal.build_entanglement_block`; the body likewise
only reads fields. -/
def build_entanglement_block_st (c : NLocalConfig) : NLocalConfig × List Block :=
  (c, c.entanglement_ops.map fun ent =>
    { layer := c.entanglement_layer
      op := ent
      n_wires := c.n_wires
      params := c.entanglement_layer_params })

/-- One iteration of the `build_layers` loop in the state-passing embedding:
calls the two block builders in order, threading the state. -/
def rep_body_st (s : NLocalConfig) : NLocalConfig × List ModuleItem :=
  let rb := build_rotation_block_st s
  let eb := build_entanglement_block_st rb.1
  (eb.1, rb.2.map ModuleItem.block ++ eb.2.map ModuleItem.block)

/-- One `for _ in range(self.reps)` iteration in the state-passing embedding:
`layers_all.extend(self.build_rotation_block()); layers_all.extend(self.build_entanglement_block())`. -/
def step_rep (acc : NLocalConfig × List ModuleItem) (_i : Nat) :
    NLocalConfig × List ModuleItem :=
  ((rep_body_st acc.1).1, acc.2 ++ (rep_body_st acc.1).2)

/-- The trailing `if not self.skip_final_rotation_layer: layers_all.extend(...)`
in the state-passing embedding. -/
def step_final (acc : NLocalConfig × List ModuleItem) : NLocalConfig × List ModuleItem :=
  if acc.1.skip_final_rotation_layer then acc
  else
    ((build_rotation_block_st acc.1).1,
      acc.2 ++ ((build_rotation_block_st acc.1).2).map ModuleItem.block)

/-- State-passing embedding of `NLocal.build_layers`: threads `self` through the
initial-circuit append, each loop iteration, and the final rotation block, and
returns the final state alongside the built sequence. -/
def build_layers_st (c : NLocalConfig) : NLocalConfig × List ModuleItem :=
  step_final ((List.range c.reps.toNat).foldl step_rep (c, initial_part c))

/-! Concrete configurations used by witnesses and counterexamples. -/

/-- A small concrete configuration: one RY rotation op, one CNOT entanglement op,
`reps = 0`, no initial circuit, final rotation layer kept. -/
def cfgA : NLocalConfig :=
  { rotation_ops := [Gate.RY]
    entanglement_ops := [Gate.CNOT]
    rotation_layer := LayerKind.Op1QAllLayer
    entanglement_layer := LayerKind.Op2QAllLayer
    reps := 0
    rotation_layer_params := [("has_params", true), ("trainable", true)]
    entanglement_layer_params := []
    initial_circuit := none
    skip_final_rotation_layer := false
    n_wires := 2 }

/-- A second literal with the same field values as `cfgA`, written out
independently. -/
def cfgA2 : NLocalConfig :=
  { rotation_ops := [Gate.RY]
    entanglement_ops := [Gate.CNOT]
    rotation_layer := LayerKind.Op1QAllLayer
    entanglement_layer := LayerKind.Op2QAllLayer
    reps := 0
    rotation_layer_params := [("has_params", true), ("trainable", true)]
    entanglement_layer_params := []
    initial_circuit := none
    skip_final_rotation_layer := false
    n_wires := 2 }

/-- `cfgA` with an initial circuit (opaque module handle 7) attached. -/
def cfgB : NLocalConfig :=
  { cfgA with initial_circuit := some 7 }

/-- A configuration with wire count 0 (violating the spec's WireCount ≥ 1
invariant), `reps = 1` and the final rotation layer skipped. -/
def cfgZeroWires : NLocalConfig :=
  { rotation_ops := [Gate.RY]
    entanglement_ops := [Gate.CNOT]
    rotation_layer := LayerKind.Op1QAllLayer
    entanglement_layer := LayerKind.Op2QAllLayer
    reps := 1
    rotation_layer_params := []
    entanglement_layer_params := []
    initial_circuit := none
    skip_final_rotation_layer := true
    n_wires := 0 }

/-- `cfgA` with a negative repetition count. -/
def cfgNeg : NLocalConfig :=
  { cfgA with reps := -2 }

/-! Shared helper lemmas. -/

lemma length_flatten_replicate (n : Nat) (l : List ModuleItem) :
    ((List.replicate n l).flatten).length = n * l.length := by
  induction n with
  | zero => simp
  | succ k ih =>
    simp [List.replicate_succ, ih, Nat.succ_mul, Nat.add_comm]

/-- The length of the sequence built by `build_layers`, as a closed formula over
the configuration. -/
lemma length_build_layers (c : NLocalConfig) :
    (build_layers c).length =
      (if c.initial_circuit.isSome then 1 else 0) +
        c.reps.toNat * (c.rotation_ops.length + c.entanglement_ops.length) +
        (if c.skip_final_rotation_layer then 0 else c.rotation_ops.length) := by
  have h1 : (initial_part c).length = if c.initial_circuit.isSome then 1 else 0 := by
    cases hic : c.initial_circuit <;> simp [initial_part, hic]
  have h2 : (rep_part c).length =
      c.reps.toNat * (c.rotation_ops.length + c.entanglement_ops.length) := by
    rw [rep_part, length_flatten_replicate]
    simp [rep_body, build_rotation_block, build_entanglement_block]
  have h3 : (final_part c).length =
      if c.skip_final_rotation_layer then 0 else c.rotation_ops.length := by
    cases hs : c.skip_final_rotation_layer <;>
      simp [final_part, hs, build_rotation_block]
  simp [build_layers, h1, h2, h3, Nat.add_assoc]

lemma foldl_step_rep_fst (l : List Nat) (s : NLocalConfig) (out : List ModuleItem) :
    ((l.foldl step_rep (s, out)).1) = s := by
  induction l generalizing out with
  | nil => rfl
  | cons x xs ih => exact ih (out ++ rep_body s)

lemma foldl_step_rep_snd (l : List Nat) (s : NLocalConfig) (out : List ModuleItem) :
    ((l.foldl step_rep (s, out)).2) =
      out ++ (List.replicate l.length (rep_body s)).flatten := by
  induction l generalizing out with
  | nil => simp
  | cons x xs ih =>
    show ((xs.foldl step_rep (s, out ++ rep_body s)).2) = _
    rw [ih (out ++ rep_body s)]
    simp [List.replicate_succ, List.append_assoc]

/-- The state-passing embedding agrees with the pure one and returns the state
unchanged. -/
lemma build_layers_st_eq (c : NLocalConfig) :
    build_layers_st c = (c, build_layers c) := by
  have hf := foldl_step_rep_fst (List.range c.reps.toNat) c (initial_part c)
  have hs := foldl_step_rep_snd (List.range c.reps.toNat) c (initial_part c)
  rw [List.length_range] at hs
  unfold build_layers_st step_final
  rw [hf]
  cases hsk : c.skip_final_rotation_layer
  · rw [if_neg (by simp [hsk])]
    rw [Prod.ext_iff]
    constructor
    · rfl
    · show (List.foldl step_rep (c, initial_part c) (List.range c.reps.toNat)).2 ++
          (build_rotation_block_st c).2.map ModuleItem.block = build_layers c
      rw [hs]
      simp [build_layers, rep_part, final_part, hsk, rep_body,
        build_rotation_block, build_rotation_block_st, List.append_assoc]
  · rw [if_pos (by simp [hsk])]
    rw [Prod.ext_iff]
    constructor
    · exact hf
    · rw [hs]
      simp [build_layers, rep_part, final_part, hsk]

/-! Claim theorems. -/

/-- C1: for every configuration accepted by `build_layers` with `reps ≥ 0`, the
returned sequence has length `(1 if initial_circuit present else 0) +
reps * (|rotation_ops| + |entanglement_ops|) + (0 if skip_final_rotation_layer
else |rotation_ops|)`; in particular, with `reps = 0`,
`skip_final_rotation_layer = false` and no initial circuit, the result is exactly
the rotation block mapped into the sequence — `|rotation_ops|` blocks and zero
entanglement blocks. -/
theorem nlocal_build_layers_length (c : NLocalConfig) (h : 0 ≤ c.reps) :
    (build_layers c).length =
      (if c.initial_circuit.isSome then 1 else 0) +
        c.reps.toNat * (c.rotation_ops.length + c.entanglement_ops.length) +
        (if c.skip_final_rotation_layer then 0 else c.rotation_ops.length) ∧
    (c.reps = 0 → c.skip_final_rotation_layer = false → c.initial_circuit = none →
      build_layers c = (build_rotation_block c).map ModuleItem.block ∧
        (build_layers c).length = c.rotation_ops.length) := by
  refine ⟨length_build_layers c, ?_⟩
  intro h0 hsk hic
  constructor
  · simp [build_layers, initial_part, rep_part, final_part, hic, h0, hsk]
  · rw [length_build_layers c]
    simp [hic, h0, hsk]

/-- Witness for C1 at the concrete configuration `cfgA` (`reps = 0`, one rotation
op, final rotation kept): the formula gives length 1 and the result is exactly the
rotation block. -/
theorem nlocal_build_layers_length_witness :
    (build_layers cfgA).length =
      (if cfgA.initial_circuit.isSome then 1 else 0) +
        cfgA.reps.toNat * (cfgA.rotation_ops.length + cfgA.entanglement_ops.length) +
        (if cfgA.skip_final_rotation_layer then 0 else cfgA.rotation_ops.length) ∧
    build_layers cfgA = (build_rotation_block cfgA).map ModuleItem.block :=
  ⟨(nlocal_build_layers_length cfgA (by decide)).1,
    ((nlocal_build_layers_length cfgA (by decide)).2 (by decide) (by decide)
        (by decide)).1⟩

/-- C2 (amended): the `TwoLocal.__init__` string dispatch maps the four known
names per the resolution table ("linear" → `Op2QAllLayer` with params unchanged,
"reverse_linear" → `Op2QAllLayer` with params reassigned to
`{"wire_reverse": True}`, "circular" → `Op2QAllLayer` with params reassigned to
`{"circular": True}`, "full" → `Op2QDenseLayer` with params unchanged); any other
argument — an unrecognized name string as much as an already-resolved layer kind —
matches no branch and is passed through unchanged: no `UnknownTopology` error is
raised anywhere. -/
theorem twoLocal_topology_resolution (p : Params) (s : String) (k : LayerKind)
    (h1 : s ≠ "linear") (h2 : s ≠ "reverse_linear") (h3 : s ≠ "circular")
    (h4 : s ≠ "full") :
    twoLocalResolve (EntArg.name "linear") p =
      (EntArg.kind LayerKind.Op2QAllLayer, p) ∧
    twoLocalResolve (EntArg.name "reverse_linear") p =
      (EntArg.kind LayerKind.Op2QAllLayer, [("wire_reverse", true)]) ∧
    twoLocalResolve (EntArg.name "circular") p =
      (EntArg.kind LayerKind.Op2QAllLayer, [("circular", true)]) ∧
    twoLocalResolve (EntArg.name "full") p =
      (EntArg.kind LayerKind.Op2QDenseLayer, p) ∧
    twoLocalResolve (EntArg.name s) p = (EntArg.name s, p) ∧
    twoLocalResolve (EntArg.kind k) p = (EntArg.kind k, p) := by
  refine ⟨rfl, rfl, rfl, rfl, ?_, ?_⟩
  · simp [twoLocalResolve, h1, h2, h3, h4]
  · simp [twoLocalResolve]

/-- Witness for C2 at params `{"a": true}`, unknown name "banana" and layer kind
`Op2QAllLayer`. -/
theorem twoLocal_topology_resolution_witness :
    twoLocalResolve (EntArg.name "banana") [("a", true)] =
      (EntArg.name "banana", [("a", true)]) :=
  (twoLocal_topology_resolution [("a", true)] "banana" LayerKind.Op2QAllLayer
      (by decide) (by decide) (by decide) (by decide)).2.2.2.2.1

/-- C2 counterexample: the dispatch has no else-branch, so the unrecognized
topology name "banana" is returned unchanged as a normal value — resolution does
not raise any `UnknownTopology` error on it. -/
theorem twoLocal_unknown_topology_passthrough :
    twoLocalResolve (EntArg.name "banana") [] = (EntArg.name "banana", []) := by
  decide

/-- C3 (amended): for topology names "reverse_linear" and "circular" the
user-supplied `entanglement_layer_params` dict is discarded wholesale: the local
variable is reassigned to a fresh dict holding only the override key
(`{"wire_reverse": True}` resp. `{"circular": True}`); no user-supplied key is
preserved. -/
theorem twoLocal_override_params_replace (p : Params) :
    twoLocalResolve (EntArg.name "reverse_linear") p =
      (EntArg.kind LayerKind.Op2QAllLayer, [("wire_reverse", true)]) ∧
    twoLocalResolve (EntArg.name "circular") p =
      (EntArg.kind LayerKind.Op2QAllLayer, [("circular", true)]) :=
  ⟨rfl, rfl⟩

/-- C3 counterexample: with user params `{"has_params": true}` and topology
"reverse_linear", the resulting params are exactly `{"wire_reverse": true}` — the
user-supplied key "has_params" is gone, so no merge preserving user keys takes
place. -/
theorem twoLocal_user_params_dropped :
    twoLocalResolve (EntArg.name "reverse_linear") [("has_params", true)] =
      (EntArg.kind LayerKind.Op2QAllLayer, [("wire_reverse", true)]) ∧
    ("has_params", true) ∉
      (twoLocalResolve (EntArg.name "reverse_linear") [("has_params", true)]).2 := by
  constructor <;> decide

/-- C4: when `initial_circuit` is present, it is element 0 of the sequence built
by `build_layers`, whatever `reps` and `skip_final_rotation_layer` are; when it
is absent, it contributes nothing — the sequence is exactly the repetition part
followed by the final part, and no error arises. -/
theorem initial_circuit_index_zero (c : NLocalConfig) :
    (∀ i, c.initial_circuit = some i →
      (build_layers c).head? = some (ModuleItem.initial i)) ∧
    (c.initial_circuit = none → build_layers c = rep_part c ++ final_part c) := by
  constructor
  · intro i hi
    simp [build_layers, initial_part, hi]
  · intro hn
    simp [build_layers, initial_part, hn]

/-- Witness for C4 at `cfgB` (initial circuit handle 7 attached) and at `cfgA`
(no initial circuit). -/
theorem initial_circuit_index_zero_witness :
    (build_layers cfgB).head? = some (ModuleItem.initial 7) ∧
    build_layers cfgA = rep_part cfgA ++ final_part cfgA :=
  ⟨(initial_circuit_index_zero cfgB).1 7 (by decide),
    (initial_circuit_index_zero cfgA).2 (by decide)⟩

/-- C5: `build_layers` is deterministic — two configurations whose ten stored
fields coincide produce equal block sequences (and equal state-passing results);
no state outside the configuration fields influences the output. -/
theorem build_layers_deterministic (c1 c2 : NLocalConfig)
    (h1 : c1.rotation_ops = c2.rotation_ops)
    (h2 : c1.entanglement_ops = c2.entanglement_ops)
    (h3 : c1.rotation_layer = c2.rotation_layer)
    (h4 : c1.entanglement_layer = c2.entanglement_layer)
    (h5 : c1.reps = c2.reps)
    (h6 : c1.rotation_layer_params = c2.rotation_layer_params)
    (h7 : c1.entanglement_layer_params = c2.entanglement_layer_params)
    (h8 : c1.initial_circuit = c2.initial_circuit)
    (h9 : c1.skip_final_rotation_layer = c2.skip_final_rotation_layer)
    (h10 : c1.n_wires = c2.n_wires) :
    build_layers c1 = build_layers c2 ∧ build_layers_st c1 = build_layers_st c2 := by
  have hc : c1 = c2 := by
    obtain ⟨r1, e1, rl1, el1, rp1, rq1, eq1, ic1, sk1, nw1⟩ := c1
    obtain ⟨r2, e2, rl2, el2, rp2, rq2, eq2, ic2, sk2, nw2⟩ := c2
    simp_all
  rw [hc]
  exact ⟨rfl, rfl⟩

/-- Witness for C5: the independently written literals `cfgA` and `cfgA2` have
identical fields and yield identical sequences. -/
theorem build_layers_deterministic_witness :
    build_layers cfgA = build_layers cfgA2 ∧
    build_layers_st cfgA = build_layers_st cfgA2 :=
  build_layers_deterministic cfgA cfgA2 rfl rfl rfl rfl rfl rfl rfl rfl rfl rfl

/-- C6 (amended): `build_layers` performs no wire-count validation — there is no
`InvalidWireCount` branch anywhere in the body — so for every configuration with
wire count < 1 it succeeds and returns the complete sequence of the usual length,
rather than failing. -/
theorem build_layers_no_wire_validation (c : NLocalConfig) (h : c.n_wires < 1) :
    build_layers_checked c = Except.ok (build_layers c) ∧
    (build_layers c).length =
      (if c.initial_circuit.isSome then 1 else 0) +
        c.reps.toNat * (c.rotation_ops.length + c.entanglement_ops.length) +
        (if c.skip_final_rotation_layer then 0 else c.rotation_ops.length) :=
  ⟨rfl, length_build_layers c⟩

/-- Witness for C6 at `cfgZeroWires` (wire count 0). -/
theorem build_layers_no_wire_validation_witness :
    build_layers_checked cfgZeroWires = Except.ok (build_layers cfgZeroWires) ∧
    (build_layers cfgZeroWires).length =
      (if cfgZeroWires.initial_circuit.isSome then 1 else 0) +
        cfgZeroWires.reps.toNat *
          (cfgZeroWires.rotation_ops.length + cfgZeroWires.entanglement_ops.length) +
        (if cfgZeroWires.skip_final_rotation_layer then 0
          else cfgZeroWires.rotation_ops.length) :=
  build_layers_no_wire_validation cfgZeroWires (by decide)

/-- C6 counterexample: `cfgZeroWires` has wire count 0 (< 1), yet `build_layers`
raises nothing and returns the full 2-block template — no `InvalidWireCount`
failure exists in the code. -/
theorem build_layers_zero_wires_ok :
    cfgZeroWires.n_wires < 1 ∧
    build_layers_checked cfgZeroWires = Except.ok (build_layers cfgZeroWires) ∧
    (build_layers cfgZeroWires).length = 2 := by
  refine ⟨by decide, rfl, by decide⟩

/-- C7: the `EfficientSU2` preset fixes rotation ops `[RY, RZ]`, entanglement ops
`[CNOT]`, the apply-to-all-wires rotation layer kind `Op1QAllLayer` with rotation
params `{"has_params": true, "trainable": true}` baked in by `TwoLocal` (its
signature exposes no rotation parameter, so no preset caller can override them);
its defaults are topology "reverse_linear" and `reps = 3`; and its topology
argument is routed through the `TwoLocal` resolution dispatch before composition,
so the default topology yields `Op2QAllLayer` with params `{"wire_reverse": true}`. -/
theorem efficientSU2_preset (n : Nat) (e : EntArg) (r : Int) (s : Bool) :
    efficientSU2Defaults = (EntArg.name "reverse_linear", 3) ∧
    efficientSU2 n e r s =
      twoLocal [Gate.RY, Gate.RZ] [Gate.CNOT] n LayerKind.Op1QAllLayer e r []
        none s ∧
    efficientSU2 n (EntArg.name "reverse_linear") r s =
      some
        { rotation_ops := [Gate.RY, Gate.RZ]
          entanglement_ops := [Gate.CNOT]
          rotation_layer := LayerKind.Op1QAllLayer
          entanglement_layer := LayerKind.Op2QAllLayer
          reps := r
          rotation_layer_params := [("has_params", true), ("trainable", true)]
          entanglement_layer_params := [("wire_reverse", true)]
          initial_circuit := none
          skip_final_rotation_layer := s
          n_wires := n } := by
  refine ⟨rfl, rfl, ?_⟩
  rfl

/-- C8: `ExcitationPreserving` with its default topology "full", `reps = 1` and
`skip_final_rotation_layer = true` builds exactly 3 blocks, in order: one RZ
rotation block, one RXX entanglement block, one RYY entanglement block, with no
trailing rotation block. -/
theorem excitationPreserving_three_blocks (n : Nat) :
    excitationPreservingDefaults.1 = EntArg.name "full" ∧
    (excitationPreserving n (EntArg.name "full") 1 true).map build_layers =
      some
        [ModuleItem.block ⟨LayerKind.Op1QAllLayer, Gate.RZ, n,
            [("has_params", true), ("trainable", true)]⟩,
          ModuleItem.block ⟨LayerKind.Op2QDenseLayer, Gate.RXX, n,
            [("has_params", true), ("trainable", true)]⟩,
          ModuleItem.block ⟨LayerKind.Op2QDenseLayer, Gate.RYY, n,
            [("has_params", true), ("trainable", true)]⟩] := by
  refine ⟨rfl, ?_⟩
  rfl

/-- C9: a negative `reps` raises no error — Python's `range` over a negative
count is empty, embedded as `Int.toNat` — and `build_layers` returns exactly the
sequence of the same configuration with `reps = 0`. -/
theorem build_layers_negative_reps (c : NLocalConfig) (h : c.reps < 0) :
    build_layers c = build_layers { c with reps := 0 } := by
  have h0 : c.reps.toNat = 0 := by omega
  simp [build_layers, initial_part, rep_part, rep_body, final_part,
    build_rotation_block, build_entanglement_block, h0]

/-- Witness for C9 at `cfgNeg` (`reps = -2`). -/
theorem build_layers_negative_reps_witness :
    build_layers cfgNeg = build_layers { cfgNeg with reps := 0 } :=
  build_layers_negative_reps cfgNeg (by decide)

/-- C10: frame property — `build_rotation_block`, `build_entanglement_block` and
`build_layers` leave every configuration field unchanged (the state returned by
the state-passing embedding is the input state), and the sequence built under
state passing coincides with the pure result; in particular the parameter dicts
are never mutated. -/
theorem build_methods_leave_config_unchanged (c : NLocalConfig) :
    (build_rotation_block_st c).1 = c ∧
    (build_entanglement_block_st c).1 = c ∧
    (build_layers_st c).1 = c ∧
    (build_layers_st c).2 = build_layers c := by
  refine ⟨rfl, rfl, ?_, ?_⟩
  · rw [build_layers_st_eq]
  · rw [build_layers_st_eq]
